import Mathlib

/-!
Verification development for the `rake_test` continuous-logging core
(`main.py`, `logger.py`, `sensor.py`, `gps.py`).

Python dictionaries holding an optional value per CSV field are embedded as
total functions `RField → Option (Option Value)`:
  * `none`          — the key is absent from the dict,
  * `some none`     — the key is present and maps to Python `None`,
  * `some (some v)` — the key is present with a real value.
Strings are `List Char`; floats are embedded as rationals `ℚ` (all the
claims under study concern presence/absence, ordering and copying, not
floating-point rounding).  `math.sin` is kept abstract as a parameter
`sinQ : ℚ → ℚ` of the simulation step.  Wall-clock time is passed in
explicitly through an `Env` record, one per call, mirroring each
`datetime.now()` the source performs.
-/

/-- The eight CSV fields of `logger.FIELD_NAMES`. -/
inductive RField where
  | timestamp | temperature | humidity | pressure | gas | latitude | longitude | altitude
deriving DecidableEq, Fintype, Repr

/-- A Python value stored in a reading dict: a string or a number. -/
inductive Value where
  | str (s : List Char)
  | num (q : ℚ)
deriving DecidableEq, Repr

/-- A Python dict with `RField` keys (absent / present-`None` / present-value). -/
def RDict : Type := RField → Option (Option Value)

instance : DecidableEq RDict :=
  inferInstanceAs (DecidableEq (RField → Option (Option Value)))

/-- `d.get(k)` — `None` both when the key is absent and when it maps to `None`. -/
def dget (d : RDict) (k : RField) : Option Value :=
  match d k with
  | none => none
  | some v => v

/-- `k in d` — key membership, regardless of the stored value. -/
def dmem (d : RDict) (k : RField) : Bool :=
  (d k).isSome

/-- `d[k] = v` on a fresh copy (our dicts are values, matching `dict(data)` copies). -/
def dinsert (d : RDict) (k : RField) (v : Option Value) : RDict :=
  fun k' => if k' = k then some v else d k'

/-- `d.setdefault(k, v)` — insert only when the key is absent. -/
def dsetdefault (d : RDict) (k : RField) (v : Option Value) : RDict :=
  if (d k).isSome then d else dinsert d k v

/-- The empty dict `{}` (what `read_gps() or {}` yields on a `None` result). -/
def emptyRD : RDict := fun _ => none

/-- `logger.FIELD_NAMES`. -/
def FIELD_NAMES : List RField :=
  [RField.timestamp, RField.temperature, RField.humidity, RField.pressure,
   RField.gas, RField.latitude, RField.longitude, RField.altitude]

/-- CSV header text of each field. -/
def fieldName : RField → List Char
  | RField.timestamp => "timestamp".toList
  | RField.temperature => "temperature".toList
  | RField.humidity => "humidity".toList
  | RField.pressure => "pressure".toList
  | RField.gas => "gas".toList
  | RField.latitude => "latitude".toList
  | RField.longitude => "longitude".toList
  | RField.altitude => "altitude".toList

/-! ### Timestamps and their rendering

`datetime.now()` values are embedded as six-component records; the two
`strftime` formats used by `logger.py` are rendered with a zero-padded
fixed-width decimal printer `pad`. -/

/-- A wall-clock instant `(year, month, day, hour, minute, second)`. -/
structure DT6 where
  y : ℕ
  mo : ℕ
  d : ℕ
  h : ℕ
  mi : ℕ
  s : ℕ
deriving DecidableEq, Repr

/-- Zero-padded fixed-width decimal rendering (width `w`, big-endian digits). -/
def pad : ℕ → ℕ → List Char
  | 0, _ => []
  | w + 1, n => pad w (n / 10) ++ [Nat.digitChar (n % 10)]

/-- `strftime("%Y%m%d_%H%M%S")`. -/
def timestampStr (t : DT6) : List Char :=
  pad 4 t.y ++ pad 2 t.mo ++ pad 2 t.d ++ ['_'] ++ pad 2 t.h ++ pad 2 t.mi ++ pad 2 t.s

/-- `strftime("%Y-%m-%d %H:%M:%S")` (session markers and row-timestamp default). -/
def humanTimeStr (t : DT6) : List Char :=
  pad 4 t.y ++ ['-'] ++ pad 2 t.mo ++ ['-'] ++ pad 2 t.d ++ [' '] ++
  pad 2 t.h ++ [':'] ++ pad 2 t.mi ++ [':'] ++ pad 2 t.s

/-- `logger.generate_log_filename`: `rake_log_<YYYYMMDD_HHMMSS>.csv`. -/
def generate_log_filename (t : DT6) : List Char :=
  "rake_log_".toList ++ timestampStr t ++ ".csv".toList

/-! ### Files and the logger state machine -/

/-- One CSV row, as written by `csv.writer` / `csv.DictWriter`: a list of cells.
`Value.str []` is the empty cell. -/
def Row : Type := List Value

instance : DecidableEq Row := inferInstanceAs (DecidableEq (List Value))

/-- The directory content: an association list from filename to rows. -/
def FS : Type := List (List Char × List Row)

instance : DecidableEq FS :=
  inferInstanceAs (DecidableEq (List (List Char × List Row)))

/-- Content lookup (first binding wins). -/
def fsLookup (fs : FS) (f : List Char) : Option (List Row) :=
  match fs with
  | [] => none
  | p :: rest => if p.1 = f then some p.2 else fsLookup rest f

/-- `os.path.exists`. -/
def fsExists (fs : FS) (f : List Char) : Bool :=
  (fsLookup fs f).isSome

/-- `open(f, 'w')` then writing `rows`: truncate-or-create. -/
def fsWrite (fs : FS) (f : List Char) (rows : List Row) : FS :=
  if fsExists fs f then fs.map (fun p => if p.1 = f then (p.1, rows) else p)
  else (f, rows) :: fs

/-- `open(f, 'a')` then writing one row: append-or-create. -/
def fsAppend (fs : FS) (f : List Char) (row : Row) : FS :=
  if fsExists fs f then fs.map (fun p => if p.1 = f then (p.1, p.2 ++ [row]) else p)
  else (f, [row]) :: fs

/-- The module-level mutable state of `logger.py`: `LOG_FILE` and `_initialized`. -/
structure LogState where
  logFile : Option (List Char)
  initialized : Bool
deriving DecidableEq, Repr

/-- The ambient inputs of one logger call: the `datetime.now()` results it may
draw (filename, session marker, row default) and whether each I/O attempt
succeeds (`openOk` for `open(..., 'w')` in `init_log`, `appendOk` for
`open(..., 'a')` in `log_data`; `False` models a raised `OSError`). -/
structure Env where
  initNow : DT6
  markerNow : DT6
  rowNow : DT6
  openOk : Bool
  appendOk : Bool
deriving DecidableEq, Repr

/-- The guard of `init_log`'s early return:
`_initialized and LOG_FILE and os.path.exists(LOG_FILE)`. -/
def logReady (s : LogState) (fs : FS) : Bool :=
  s.initialized && (match s.logFile with
    | some f => fsExists fs f
    | none => false)

/-- Row 1 of every session file: the header. -/
def headerRow : Row := FIELD_NAMES.map (fun k => Value.str (fieldName k))

/-- Row 2 of every session file: the session marker (first cell only, rest blank). -/
def markerRow (t : DT6) : Row :=
  Value.str ("# New session ".toList ++ humanTimeStr t) ::
    FIELD_NAMES.tail.map (fun _ => Value.str [])

/-- `logger.init_log`.  Early-returns when already initialized with an existing
file; otherwise picks a fresh timestamped filename and creates the file with
header and marker.  All exceptions of the body are caught by the source
(`except Exception`), which resets `LOG_FILE = None` / `_initialized = False`;
hence the function is total and `openOk = false` yields the reset state. -/
def init_log (s : LogState) (fs : FS) (env : Env) : LogState × FS :=
  if logReady s fs then (s, fs)
  else
    let file := generate_log_filename env.initNow
    if env.openOk then
      ({ logFile := some file, initialized := true },
        fsWrite fs file [headerRow, markerRow env.markerNow])
    else
      ({ logFile := none, initialized := false }, fs)

/-- How one `log_data` call ended (the source reports these via `print`). -/
inductive LogStatus where
  | logged | initFailed | appendFailed
deriving DecidableEq, Repr

/-- Result of a `log_data` call: new logger state, new directory content,
reported status, and the caller's dict after the call returns. -/
structure LogOutcome where
  state : LogState
  fs : FS
  status : LogStatus
  callerData : RDict

/-- The row `log_data` serializes for `data`:
`data_with_timestamp = dict(data)` (a copy), timestamp defaulted to now when
absent or `None`, then one cell per `FIELD_NAMES` entry with `None` rendered
as the empty string, in header order (`csv.DictWriter(fieldnames=FIELD_NAMES)`). -/
def dwtOf (data : RDict) (env : Env) : RDict :=
  if dget data RField.timestamp = none then
    dinsert data RField.timestamp (some (Value.str (humanTimeStr env.rowNow)))
  else data

/-- One cell of the CSV row: `"" if v is None else v`. -/
def serializeCell (d : RDict) (k : RField) : Value :=
  match dget d k with
  | none => Value.str []
  | some v => v

def logRowOf (data : RDict) (env : Env) : Row :=
  FIELD_NAMES.map (serializeCell (dwtOf data env))

/-- The tail of `log_data` once a filename `f` is at hand: serialize and append;
an `OSError` from the append (`appendOk = false`) is caught and reported. -/
def appendStep (s : LogState) (fs : FS) (env : Env) (data : RDict) (f : List Char) :
    LogOutcome :=
  if env.appendOk then
    ⟨s, fsAppend fs f (logRowOf data env), LogStatus.logged, data⟩
  else
    ⟨s, fs, LogStatus.appendFailed, data⟩

/-- The `os.path.exists(LOG_FILE)` check of `log_data`: if the file disappeared,
clear `_initialized`, re-run `init_log`, and give up (dropping the record)
only when that re-initialization leaves `LOG_FILE = None`. -/
def existsStep (s : LogState) (fs : FS) (env : Env) (data : RDict) (f : List Char) :
    LogOutcome :=
  if fsExists fs f then appendStep s fs env data f
  else
    let s0 : LogState := { s with initialized := false }
    let p := init_log s0 fs env
    match p.1.logFile with
    | none => ⟨p.1, p.2, LogStatus.initFailed, data⟩
    | some f1 => appendStep p.1 p.2 env data f1

/-- `logger.log_data`.  When `LOG_FILE is None` it first attempts `init_log`
and returns (reporting failure, record dropped) only if `LOG_FILE` is still
`None`; then the existence check and the append follow.  Total: every
exception path of the source is caught inside the call. -/
def log_data (s : LogState) (fs : FS) (env : Env) (data : RDict) : LogOutcome :=
  match s.logFile with
  | some f => existsStep s fs env data f
  | none =>
    let p := init_log s fs env
    match p.1.logFile with
    | none => ⟨p.1, p.2, LogStatus.initFailed, data⟩
    | some f => existsStep p.1 p.2 env data f

/-- The claim's "writer is not ready": no session begun (`LOG_FILE is None`)
or the session file no longer exists on disk. -/
def writerReady (s : LogState) (fs : FS) : Bool :=
  match s.logFile with
  | some f => fsExists fs f
  | none => false

/-! ### The sensor source (`sensor.py`) -/

/-- Outcome of one BME680 poll: initialization failed / `get_sensor_data()`
false or an exception / a successful reading (gas may be unavailable). -/
inductive SensorResult where
  | noInit
  | noData
  | ok (t h p : ℚ) (gas : Option ℚ)
deriving DecidableEq, Repr

/-- `sensor.read_sensor`: every branch of the source returns a dict carrying
all five keys, and always stamps `timestamp = datetime.now().isoformat()`
(passed in here as `now`); on failure the four measurements are `None`. -/
def read_sensor (now : List Char) (r : SensorResult) : RDict :=
  fun k =>
    match k with
    | RField.timestamp => some (some (Value.str now))
    | RField.temperature =>
        match r with
        | SensorResult.ok t _ _ _ => some (some (Value.num t))
        | _ => some none
    | RField.humidity =>
        match r with
        | SensorResult.ok _ h _ _ => some (some (Value.num h))
        | _ => some none
    | RField.pressure =>
        match r with
        | SensorResult.ok _ _ p _ => some (some (Value.num p))
        | _ => some none
    | RField.gas =>
        match r with
        | SensorResult.ok _ _ _ (some g) => some (some (Value.num g))
        | SensorResult.ok _ _ _ none => some none
        | _ => some none
    | _ => none

/-! ### The position source (`gps.py`) -/

/-- A parsed NMEA message as `pynmea2` hands it to `_parse_gpgga`:
`lat`/`lon` are `none` when the raw coordinate field is the empty string
(Python `not value`), otherwise the numeric value of the `ddmm.mmmm` text;
`altitude` is `none` for a missing/empty altitude; `gps_qual = 0` marks an
invalid fix. -/
structure NmeaMsg where
  sentence_type : List Char
  gps_qual : ℕ
  lat : Option ℚ
  lat_dir : List Char
  lon : Option ℚ
  lon_dir : List Char
  altitude : Option ℚ
deriving DecidableEq, Repr

/-- Python `int()` on a rational: truncation toward zero
(`Int.tdiv` is exactly T-division). -/
def intTrunc (q : ℚ) : ℤ := Int.tdiv q.num (q.den : ℤ)

/-- The inner `_convert(value, direction)` of `_parse_gpgga`:
empty input gives `None`; otherwise `deg = int(v / 100)`,
`minutes = v - deg * 100`, `dec = deg + minutes / 60`, negated for S/W. -/
def nmea_convert (value : Option ℚ) (direction : List Char) : Option ℚ :=
  match value with
  | none => none
  | some v =>
    let deg : ℤ := intTrunc (v / 100)
    let minutes : ℚ := v - (deg : ℚ) * 100
    let dec : ℚ := (deg : ℚ) + minutes / 60
    some (if direction = ['S'] ∨ direction = ['W'] then -dec else dec)

/-- `gps._parse_gpgga`: `None` unless the sentence is GGA with non-zero fix
quality; otherwise a dict with the UTC timestamp (`now`) and the three
converted coordinates, each independently possibly `None`. -/
def parse_gpgga (now : List Char) (msg : NmeaMsg) : Option RDict :=
  if msg.sentence_type ≠ "GGA".toList then none
  else if msg.gps_qual = 0 then none
  else some (fun k =>
    match k with
    | RField.timestamp => some (some (Value.str now))
    | RField.latitude => some (Option.map Value.num (nmea_convert msg.lat msg.lat_dir))
    | RField.longitude => some (Option.map Value.num (nmea_convert msg.lon msg.lon_dir))
    | RField.altitude => some (Option.map Value.num msg.altitude)
    | _ => none)

/-- `gps.read_data`: scan the serial lines seen during the poll window and
return the first successfully parsed GGA fix (`if data: return data` — the
parsed dict is non-empty, hence truthy); `None` when the window closes or on
a caught serial error. -/
def gps_read_data (now : List Char) : List NmeaMsg → Option RDict
  | [] => none
  | m :: rest =>
    match parse_gpgga now m with
    | some d => some d
    | none => gps_read_data now rest

/-! ### The orchestrator tick (`main.py`) -/

/-- The merge of `main.main`: `merged = {**sensor_data}`, then for each of
latitude/longitude/altitude, `if k in gps_data: merged[k] = gps_data[k]`. -/
def overlayGps (sensor gps : RDict) : RDict :=
  [RField.latitude, RField.longitude, RField.altitude].foldl
    (fun m k =>
      match gps k with
      | some v => dinsert m k v
      | none => m)
    sensor

/-- The `if data.get(k) is None: data[k] = v` pattern of `_simulate_if_missing`. -/
def fillIfNone (d : RDict) (k : RField) (v : Value) : RDict :=
  if dget d k = none then dinsert d k (some v) else d

/-- `main._simulate_if_missing`: fill `temperature`, `humidity`, `pressure`
(and only those) with synthetic sinusoid values when they are `None`;
`baseT = len(history['temperature'])`, `sinQ` abstracts `math.sin`. -/
def simulate_if_missing (sinQ : ℚ → ℚ) (baseT : ℕ) (data : RDict) : RDict :=
  fillIfNone
    (fillIfNone
      (fillIfNone data RField.temperature
        (Value.num (22 + (1 / 2) * sinQ ((baseT : ℚ) / 15))))
      RField.humidity
      (Value.num (45 + 5 * sinQ ((baseT : ℚ) / 25))))
    RField.pressure
    (Value.num (1013 + 2 * sinQ ((baseT : ℚ) / 40)))

/-- The merge-and-fallback step of one tick of `main.main`: overlay the GPS
fields, `setdefault` the three position keys to `None`, then
`_simulate_if_missing`. -/
def tickMerge (sinQ : ℚ → ℚ) (baseT : ℕ) (sensor gps : RDict) : RDict :=
  simulate_if_missing sinQ baseT
    (dsetdefault
      (dsetdefault
        (dsetdefault (overlayGps sensor gps) RField.latitude none)
        RField.longitude none)
      RField.altitude none)

/-- What `__main__` of `main.py` does at startup: `main()` calls `init_log()`
(which catches every exception internally) and then unconditionally enters
the sampling loop; `exit(1)` is reached only when an exception escapes
`main()` itself. -/
inductive StartOutcome where
  | enteredLoop | exitedNonZero
deriving DecidableEq, Repr

/-- The `STARTING` phase of `main.main`: run `init_log` and proceed into the
loop regardless of its success. -/
def main_startup (s : LogState) (fs : FS) (env : Env) :
    StartOutcome × LogState × FS :=
  let p := init_log s fs env
  (StartOutcome.enteredLoop, p.1, p.2)

/-! ### The rolling history buffer (`main.history`) -/

/-- `HISTORY_LEN` of `main.py`. -/
def HISTORY_LEN : ℕ := 120

/-- One `deque(maxlen=N).append(x)`: drop the oldest element when full. -/
def histAppend (N : ℕ) (buf : List ℚ) (x : ℚ) : List ℚ :=
  if buf.length < N then buf ++ [x] else buf.tail ++ [x]

/-- The buffer contents after appending the samples of `l`, oldest first,
to an initially empty `deque(maxlen=N)`. -/
def runHistory (N : ℕ) (l : List ℚ) : List ℚ :=
  l.foldl (histAppend N) []

/-! ### Basic dictionary and file-system lemmas -/

theorem dget_dinsert_self (d : RDict) (k : RField) (v : Option Value) :
    dget (dinsert d k v) k = v := by
  simp [dget, dinsert]

theorem dget_dinsert_ne (d : RDict) (k k' : RField) (v : Option Value)
    (h : k' ≠ k) : dget (dinsert d k v) k' = dget d k' := by
  simp [dget, dinsert, h]

theorem dget_dsetdefault_ne (d : RDict) (k k' : RField) (v : Option Value)
    (h : k' ≠ k) : dget (dsetdefault d k v) k' = dget d k' := by
  unfold dsetdefault
  split
  · rfl
  · exact dget_dinsert_ne d k k' v h

theorem fsLookup_fsWrite_self (fs : FS) (f : List Char) (rows : List Row) :
    fsLookup (fsWrite fs f rows) f = some rows := by
  unfold fsWrite
  split
  case isTrue hex =>
    induction fs with
    | nil => simp [fsExists, fsLookup] at hex
    | cons p rest ih =>
      by_cases hp : p.1 = f
      · simp [fsLookup, hp]
      · have hex' : fsExists rest f = true := by
          simpa [fsExists, fsLookup, hp] using hex
        simpa [fsLookup, hp] using ih hex'
  case isFalse => simp [fsLookup]

theorem fsLookup_fsAppend_self (fs : FS) (f : List Char) (row : Row)
    (rows : List Row) (h : fsLookup fs f = some rows) :
    fsLookup (fsAppend fs f row) f = some (rows ++ [row]) := by
  unfold fsAppend
  have hex : fsExists fs f = true := by simp [fsExists, h]
  rw [if_pos hex]
  clear hex
  induction fs with
  | nil => simp [fsLookup] at h
  | cons p rest ih =>
    by_cases hp : p.1 = f
    · have : p.2 = rows := by simpa [fsLookup, hp] using h
      simp [fsLookup, hp, this]
    · have h' : fsLookup rest f = some rows := by simpa [fsLookup, hp] using h
      simpa [fsLookup, hp] using ih h'

theorem fsExists_fsWrite_self (fs : FS) (f : List Char) (rows : List Row) :
    fsExists (fsWrite fs f rows) f = true := by
  simp [fsExists, fsLookup_fsWrite_self]

/-! ### Rolling-history lemmas -/

theorem runHistory_concat (N : ℕ) (l : List ℚ) (x : ℚ) :
    runHistory N (l ++ [x]) = histAppend N (runHistory N l) x := by
  simp [runHistory, List.foldl_append]

theorem runHistory_eq_drop (N : ℕ) (hN : 1 ≤ N) (l : List ℚ) :
    runHistory N l = l.drop (l.length - N) := by
  induction l using List.reverseRecOn with
  | nil => simp [runHistory]
  | append_singleton l x ih =>
    rw [runHistory_concat, ih, histAppend]
    have hdroplen : (l.drop (l.length - N)).length = l.length - (l.length - N) := by
      simp
    by_cases h : l.length < N
    · have h0 : l.length - N = 0 := Nat.sub_eq_zero_of_le (le_of_lt h)
      have h1 : (l ++ [x]).length - N = 0 := by
        simp only [List.length_append, List.length_singleton]
        omega
      rw [h0, h1, List.drop_zero, List.drop_zero]
      rw [if_pos (by simpa [h0] using h)]
    · have hNle : N ≤ l.length := le_of_not_lt h
      have hlen : (l.drop (l.length - N)).length = N := by omega
      rw [if_neg (by omega)]
      have htail : (l.drop (l.length - N)).tail = l.drop (l.length - N + 1) := by
        rw [List.tail_drop]
      rw [htail]
      have hk : (l ++ [x]).length - N = (l.length - N) + 1 := by
        simp only [List.length_append, List.length_singleton]
        omega
      rw [hk, List.drop_append_of_le_length (by omega)]

/-! ### Padded decimal strings and lexicographic order -/

theorem pad_length (w n : ℕ) : (pad w n).length = w := by
  induction w generalizing n with
  | zero => rfl
  | succ w ih => simp [pad, ih]

/-- Splitting a padded number at a digit boundary. -/
theorem pad_mul_add (a : ℕ) : ∀ (b m r : ℕ), r < 10 ^ b →
    pad (a + b) (m * 10 ^ b + r) = pad a m ++ pad b r := by
  intro b
  induction b with
  | zero =>
    intro m r hr
    interval_cases r
    simp [pad]
  | succ b ih =>
    intro m r hr
    have key : ∀ q u : ℕ, (q * 10 + u) / 10 = q + u / 10 := by
      intro q u; omega
    have keym : ∀ q u : ℕ, (q * 10 + u) % 10 = u % 10 := by
      intro q u; omega
    have hq : (m * 10 ^ (b + 1) + r) / 10 = m * 10 ^ b + r / 10 := by
      rw [pow_succ, ← mul_assoc]; exact key _ r
    have hm : (m * 10 ^ (b + 1) + r) % 10 = r % 10 := by
      rw [pow_succ, ← mul_assoc]; exact keym _ r
    have hr' : r / 10 < 10 ^ b := by
      rw [Nat.div_lt_iff_lt_mul (by norm_num : 0 < 10)]
      calc r < 10 ^ (b + 1) := hr
        _ = 10 ^ b * 10 := by rw [pow_succ]
    have hstep : a + (b + 1) = (a + b) + 1 := by omega
    rw [hstep]
    show pad (a + b) ((m * 10 ^ (b + 1) + r) / 10) ++
        [Nat.digitChar ((m * 10 ^ (b + 1) + r) % 10)] = pad a m ++ pad (b + 1) r
    rw [hq, hm, ih m (r / 10) hr']
    simp [pad]

/-- Digit characters are strictly monotone on `0..9`. -/
theorem digitChar_lt : ∀ a < 10, ∀ b < 10, a < b →
    Nat.digitChar a < Nat.digitChar b := by decide

theorem lex_ne {xs ys : List Char} (h : List.Lex (· < ·) xs ys) : xs ≠ ys := by
  induction h with
  | nil => simp
  | rel h => intro he; cases he; exact lt_irrefl _ h
  | cons _ ih => intro he; cases he; exact ih rfl

theorem lex_append_same (xs : List Char) {as bs : List Char}
    (h : List.Lex (· < ·) as bs) :
    List.Lex (· < ·) (xs ++ as) (xs ++ bs) := by
  induction xs with
  | nil => simpa using h
  | cons c xs ih => exact List.Lex.cons ih

theorem lex_append_of_lex : ∀ {xs ys : List Char}, List.Lex (· < ·) xs ys →
    xs.length = ys.length → ∀ (as bs : List Char),
    List.Lex (· < ·) (xs ++ as) (ys ++ bs) := by
  intro xs ys h
  induction h with
  | nil => intro hlen; simp at hlen
  | rel h => intro _ as bs; exact List.Lex.rel h
  | cons _ ih =>
    intro hlen as bs
    exact List.Lex.cons (ih (by simpa using hlen) as bs)

/-- Padded rendering is strictly monotone below the width bound. -/
theorem pad_lex : ∀ (w m n : ℕ), m < n → n < 10 ^ w →
    List.Lex (· < ·) (pad w m) (pad w n) := by
  intro w
  induction w with
  | zero => intro m n hmn hn; omega
  | succ w ih =>
    intro m n hmn hn
    have hq : m / 10 ≤ n / 10 := Nat.div_le_div_right (le_of_lt hmn)
    have hn' : n / 10 < 10 ^ w := by
      rw [Nat.div_lt_iff_lt_mul (by norm_num : 0 < 10)]
      calc n < 10 ^ (w + 1) := hn
        _ = 10 ^ w * 10 := by rw [pow_succ]
    rcases lt_or_eq_of_le hq with hlt | heq
    · have hlex := ih (m / 10) (n / 10) hlt hn'
      exact lex_append_of_lex hlex (by rw [pad_length, pad_length]) _ _
    · have hmod : m % 10 < n % 10 := by
        have hm10 := Nat.div_add_mod m 10
        have hn10 := Nat.div_add_mod n 10
        omega
      show List.Lex (· < ·) (pad w (m / 10) ++ [Nat.digitChar (m % 10)])
        (pad w (n / 10) ++ [Nat.digitChar (n % 10)])
      rw [heq]
      apply lex_append_same
      exact List.Lex.rel (digitChar_lt _ (Nat.mod_lt _ (by norm_num)) _
        (Nat.mod_lt _ (by norm_num)) hmod)

/-! ### Session filename ordering -/

/-- Component bounds guaranteeing each `strftime` field fits its padding. -/
def dtBounded (t : DT6) : Prop :=
  t.y < 10000 ∧ t.mo < 100 ∧ t.d < 100 ∧ t.h < 100 ∧ t.mi < 100 ∧ t.s < 100

instance (t : DT6) : Decidable (dtBounded t) := by
  unfold dtBounded; infer_instance

/-- Chronological key of an instant: seconds-resolution lexicographic packing
of the six components. -/
def dtKey (t : DT6) : ℕ :=
  ((((t.y * 100 + t.mo) * 100 + t.d) * 100 + t.h) * 100 + t.mi) * 100 + t.s

theorem timestampStr_decompose (t : DT6) (h : dtBounded t) :
    timestampStr t =
      pad 8 ((t.y * 100 + t.mo) * 100 + t.d) ++ ['_'] ++
      pad 6 ((t.h * 100 + t.mi) * 100 + t.s) := by
  obtain ⟨hy, hmo, hd, hh, hmi, hs⟩ := h
  have hp2 : (10 : ℕ) ^ 2 = 100 := by norm_num
  have e1 : pad 8 ((t.y * 100 + t.mo) * 100 + t.d)
      = pad 6 (t.y * 100 + t.mo) ++ pad 2 t.d := by
    have e := pad_mul_add 6 2 (t.y * 100 + t.mo) t.d (by rw [hp2]; exact hd)
    rw [hp2] at e
    exact e
  have e2 : pad 6 (t.y * 100 + t.mo) = pad 4 t.y ++ pad 2 t.mo := by
    have e := pad_mul_add 4 2 t.y t.mo (by rw [hp2]; exact hmo)
    rw [hp2] at e
    exact e
  have e3 : pad 6 ((t.h * 100 + t.mi) * 100 + t.s)
      = pad 4 (t.h * 100 + t.mi) ++ pad 2 t.s := by
    have e := pad_mul_add 4 2 (t.h * 100 + t.mi) t.s (by rw [hp2]; exact hs)
    rw [hp2] at e
    exact e
  have e4 : pad 4 (t.h * 100 + t.mi) = pad 2 t.h ++ pad 2 t.mi := by
    have e := pad_mul_add 2 2 t.h t.mi (by rw [hp2]; exact hmi)
    rw [hp2] at e
    exact e
  rw [e1, e2, e3, e4]
  simp [timestampStr, List.append_assoc]

/-- Strictly earlier creation instants give lexicographically smaller
session filenames. -/
theorem generate_log_filename_lex (t1 t2 : DT6)
    (h1 : dtBounded t1) (h2 : dtBounded t2) (hlt : dtKey t1 < dtKey t2) :
    List.Lex (· < ·) (generate_log_filename t1) (generate_log_filename t2) := by
  obtain ⟨hy1, hmo1, hd1, hh1, hmi1, hs1⟩ := h1
  obtain ⟨hy2, hmo2, hd2, hh2, hmi2, hs2⟩ := h2
  have hts1 := timestampStr_decompose t1 ⟨hy1, hmo1, hd1, hh1, hmi1, hs1⟩
  have hts2 := timestampStr_decompose t2 ⟨hy2, hmo2, hd2, hh2, hmi2, hs2⟩
  unfold generate_log_filename
  rw [hts1, hts2]
  have hsplit :
      (t1.y * 100 + t1.mo) * 100 + t1.d < (t2.y * 100 + t2.mo) * 100 + t2.d ∨
      (((t1.y * 100 + t1.mo) * 100 + t1.d = (t2.y * 100 + t2.mo) * 100 + t2.d) ∧
        (t1.h * 100 + t1.mi) * 100 + t1.s < (t2.h * 100 + t2.mi) * 100 + t2.s) := by
    unfold dtKey at hlt
    omega
  rcases hsplit with hdk | ⟨hdkeq, htk⟩
  · have hdk2 : (t2.y * 100 + t2.mo) * 100 + t2.d < 10 ^ 8 := by
      norm_num
      omega
    have hl8 := pad_lex 8 _ _ hdk hdk2
    have hmid := lex_append_of_lex hl8 (by rw [pad_length, pad_length])
      (['_'] ++ pad 6 ((t1.h * 100 + t1.mi) * 100 + t1.s) ++ ".csv".toList)
      (['_'] ++ pad 6 ((t2.h * 100 + t2.mi) * 100 + t2.s) ++ ".csv".toList)
    have hfull := lex_append_same "rake_log_".toList hmid
    simpa [List.append_assoc] using hfull
  · have htk2 : (t2.h * 100 + t2.mi) * 100 + t2.s < 10 ^ 6 := by
      norm_num
      omega
    have hl6 := pad_lex 6 _ _ htk htk2
    have hmid := lex_append_of_lex hl6 (by rw [pad_length, pad_length])
      ".csv".toList ".csv".toList
    have hfull := lex_append_same
      ("rake_log_".toList ++ pad 8 ((t2.y * 100 + t2.mo) * 100 + t2.d) ++ ['_']) hmid
    rw [hdkeq]
    simpa [List.append_assoc] using hfull

/-! ### Helper lemmas on the merge-and-fallback step -/

theorem dget_fillIfNone_self (d : RDict) (k : RField) (v : Value) :
    (dget (fillIfNone d k v) k).isSome = true := by
  unfold fillIfNone
  split
  case isTrue => simp [dget_dinsert_self]
  case isFalse h =>
    cases hv : dget d k with
    | none => exact absurd hv h
    | some w => simp [hv]

theorem dget_fillIfNone_ne (d : RDict) (k k' : RField) (v : Value)
    (h : k' ≠ k) : dget (fillIfNone d k v) k' = dget d k' := by
  unfold fillIfNone
  split
  · exact dget_dinsert_ne d k k' _ h
  · rfl

theorem dget_fillIfNone_isSome (d : RDict) (k k' : RField) (v : Value)
    (h : (dget d k').isSome = true) :
    (dget (fillIfNone d k v) k').isSome = true := by
  by_cases hk : k' = k
  · subst hk; exact dget_fillIfNone_self d k' v
  · rw [dget_fillIfNone_ne d k k' v hk]; exact h

/-- Pointwise description of the GPS overlay of `main.main`. -/
theorem overlayGps_apply (sensor gps : RDict) (k : RField) :
    overlayGps sensor gps k =
      if (k = RField.latitude ∨ k = RField.longitude ∨ k = RField.altitude) ∧
          (gps k).isSome = true then gps k
      else sensor k := by
  cases k <;>
    simp only [overlayGps, List.foldl_cons, List.foldl_nil] <;>
    rcases hla : gps RField.latitude with _ | va <;>
    rcases hlo : gps RField.longitude with _ | vo <;>
    rcases hal : gps RField.altitude with _ | vb <;>
    simp [dinsert, hla, hlo, hal]

/-! ### Helper lemmas on `logRowOf` and `log_data` -/

theorem logRowOf_length (data : RDict) (env : Env) :
    (logRowOf data env).length = FIELD_NAMES.length := by
  simp [logRowOf]

theorem dget_dwtOf_ne (data : RDict) (env : Env) (k : RField)
    (hk : k ≠ RField.timestamp) :
    dget (dwtOf data env) k = dget data k := by
  unfold dwtOf
  split
  · exact dget_dinsert_ne data RField.timestamp k _ hk
  · rfl

theorem dget_dwtOf_timestamp_of_some (data : RDict) (env : Env) (v : Value)
    (h : dget data RField.timestamp = some v) :
    dget (dwtOf data env) RField.timestamp = some v := by
  unfold dwtOf
  rw [if_neg (by simp [h])]
  exact h

theorem dget_dwtOf_timestamp_of_none (data : RDict) (env : Env)
    (h : dget data RField.timestamp = none) :
    dget (dwtOf data env) RField.timestamp =
      some (Value.str (humanTimeStr env.rowNow)) := by
  unfold dwtOf
  rw [if_pos h]
  exact dget_dinsert_self data RField.timestamp _

theorem logRowOf_head_of_some (data : RDict) (env : Env) (v : Value)
    (h : dget data RField.timestamp = some v) :
    (logRowOf data env).head? = some v := by
  have hc : serializeCell (dwtOf data env) RField.timestamp = v := by
    unfold serializeCell
    rw [dget_dwtOf_timestamp_of_some data env v h]
  simp [logRowOf, FIELD_NAMES, hc]

theorem logRowOf_head_of_none (data : RDict) (env : Env)
    (h : dget data RField.timestamp = none) :
    (logRowOf data env).head? = some (Value.str (humanTimeStr env.rowNow)) := by
  have hc : serializeCell (dwtOf data env) RField.timestamp =
      Value.str (humanTimeStr env.rowNow) := by
    unfold serializeCell
    rw [dget_dwtOf_timestamp_of_none data env h]
  simp [logRowOf, FIELD_NAMES, hc]

/-- Any cell of the row other than the timestamp is the serialization of the
caller's value for that field: absent or `None` becomes the empty string. -/
theorem logRowOf_blank (data : RDict) (env : Env) (k : RField)
    (hk : k ≠ RField.timestamp) (hnone : dget data k = none)
    (i : ℕ) (hi : i < FIELD_NAMES.length)
    (hki : FIELD_NAMES.get ⟨i, hi⟩ = k)
    (hi2 : i < (logRowOf data env).length) :
    (logRowOf data env).get ⟨i, hi2⟩ = Value.str [] := by
  have hmap : (logRowOf data env).get ⟨i, hi2⟩ =
      serializeCell (dwtOf data env) (FIELD_NAMES.get ⟨i, hi⟩) := by
    simp [logRowOf]
  rw [hmap, hki]
  unfold serializeCell
  rw [dget_dwtOf_ne data env k hk, hnone]

theorem appendStep_caller (s : LogState) (fs : FS) (env : Env) (data : RDict)
    (f : List Char) : (appendStep s fs env data f).callerData = data := by
  unfold appendStep
  split <;> rfl

theorem existsStep_caller (s : LogState) (fs : FS) (env : Env) (data : RDict)
    (f : List Char) : (existsStep s fs env data f).callerData = data := by
  unfold existsStep
  split
  · exact appendStep_caller s fs env data f
  · rcases h : (init_log { s with initialized := false } fs env).1.logFile with _ | f1
    · simp [h]
    · simp [h, appendStep_caller]

theorem log_data_caller (s : LogState) (fs : FS) (env : Env) (data : RDict) :
    (log_data s fs env data).callerData = data := by
  unfold log_data
  rcases hsf : s.logFile with _ | f
  · rcases h : (init_log s fs env).1.logFile with _ | f1
    · simp [h]
    · simp [h, existsStep_caller]
  · exact existsStep_caller s fs env data f

/-! Reduction lemmas exposing the control flow of `log_data`. -/

theorem log_data_some_red (s : LogState) (fs : FS) (env : Env) (data : RDict)
    (f : List Char) (hsf : s.logFile = some f) :
    log_data s fs env data = existsStep s fs env data f := by
  unfold log_data
  rw [hsf]

theorem log_data_none_red (s : LogState) (fs : FS) (env : Env) (data : RDict)
    (hsf : s.logFile = none) :
    log_data s fs env data =
      (match (init_log s fs env).1.logFile with
       | none => ⟨(init_log s fs env).1, (init_log s fs env).2,
           LogStatus.initFailed, data⟩
       | some f => existsStep (init_log s fs env).1 (init_log s fs env).2
           env data f) := by
  unfold log_data
  rw [hsf]

theorem existsStep_exists_red (s : LogState) (fs : FS) (env : Env)
    (data : RDict) (f : List Char) (hex : fsExists fs f = true) :
    existsStep s fs env data f = appendStep s fs env data f := by
  unfold existsStep
  simp [hex]

theorem existsStep_missing_red (s : LogState) (fs : FS) (env : Env)
    (data : RDict) (f : List Char) (hex : fsExists fs f = false) :
    existsStep s fs env data f =
      (match (init_log { s with initialized := false } fs env).1.logFile with
       | none => ⟨(init_log { s with initialized := false } fs env).1,
           (init_log { s with initialized := false } fs env).2,
           LogStatus.initFailed, data⟩
       | some f1 => appendStep (init_log { s with initialized := false } fs env).1
           (init_log { s with initialized := false } fs env).2 env data f1) := by
  unfold existsStep
  simp [hex]

/-- A not-yet-ready state always fails `init_log`'s early-return guard,
so a fresh initialization is attempted. -/
theorem init_log_not_ready (s : LogState) (fs : FS) (env : Env)
    (h : logReady s fs = false) :
    init_log s fs env =
      (if env.openOk then
        ({ logFile := some (generate_log_filename env.initNow), initialized := true },
          fsWrite fs (generate_log_filename env.initNow)
            [headerRow, markerRow env.markerNow])
      else ({ logFile := none, initialized := false }, fs)) := by
  simp [init_log, h]

/-- The not-ready `log_data` call with a failing re-initialization: the
failure is reported and the record dropped, the directory is untouched. -/
theorem log_data_unready_initFail (s : LogState) (fs : FS) (env : Env)
    (data : RDict) (hnr : writerReady s fs = false) (ho : env.openOk = false) :
    log_data s fs env data =
      ⟨{ logFile := none, initialized := false }, fs, LogStatus.initFailed, data⟩ := by
  rcases hsf : s.logFile with _ | f
  · have hlr : logReady s fs = false := by simp [logReady, hsf]
    rw [log_data_none_red s fs env data hsf, init_log_not_ready s fs env hlr, ho]
    simp
  · have hex : fsExists fs f = false := by
      simpa [writerReady, hsf] using hnr
    have hlr : logReady { s with initialized := false } fs = false := by
      simp [logReady]
    rw [log_data_some_red s fs env data f hsf, existsStep_missing_red s fs env data f hex,
      init_log_not_ready { s with initialized := false } fs env hlr, ho]
    simp

/-- The not-ready `log_data` call with a succeeding re-initialization and
append: the record lands in the freshly created session file, after the
header and the marker. -/
theorem log_data_unready_heal (s : LogState) (fs : FS) (env : Env)
    (data : RDict) (hnr : writerReady s fs = false) (ho : env.openOk = true)
    (ha : env.appendOk = true) :
    (log_data s fs env data).status = LogStatus.logged ∧
    (log_data s fs env data).state =
      { logFile := some (generate_log_filename env.initNow), initialized := true } ∧
    fsLookup (log_data s fs env data).fs (generate_log_filename env.initNow) =
      some [headerRow, markerRow env.markerNow, logRowOf data env] := by
  have happend :
      appendStep { logFile := some (generate_log_filename env.initNow), initialized := true }
        (fsWrite fs (generate_log_filename env.initNow)
          [headerRow, markerRow env.markerNow]) env data
        (generate_log_filename env.initNow) =
      ⟨{ logFile := some (generate_log_filename env.initNow), initialized := true },
        fsAppend (fsWrite fs (generate_log_filename env.initNow)
          [headerRow, markerRow env.markerNow])
          (generate_log_filename env.initNow) (logRowOf data env),
        LogStatus.logged, data⟩ := by
    unfold appendStep
    rw [if_pos (by simp [ha])]
  have hlook : fsLookup
      (fsAppend (fsWrite fs (generate_log_filename env.initNow)
        [headerRow, markerRow env.markerNow])
        (generate_log_filename env.initNow) (logRowOf data env))
      (generate_log_filename env.initNow) =
      some [headerRow, markerRow env.markerNow, logRowOf data env] := by
    have h1 := fsLookup_fsWrite_self fs (generate_log_filename env.initNow)
      [headerRow, markerRow env.markerNow]
    have h2 := fsLookup_fsAppend_self _ (generate_log_filename env.initNow)
      (logRowOf data env) _ h1
    simpa using h2
  rcases hsf : s.logFile with _ | f
  · have hlr : logReady s fs = false := by simp [logReady, hsf]
    rw [log_data_none_red s fs env data hsf, init_log_not_ready s fs env hlr, ho]
    simp only [if_true]
    rw [existsStep_exists_red _ _ _ _ _ (fsExists_fsWrite_self fs _ _), happend]
    exact ⟨rfl, rfl, hlook⟩
  · have hex : fsExists fs f = false := by
      simpa [writerReady, hsf] using hnr
    have hlr : logReady { s with initialized := false } fs = false := by
      simp [logReady]
    rw [log_data_some_red s fs env data f hsf, existsStep_missing_red s fs env data f hex,
      init_log_not_ready { s with initialized := false } fs env hlr, ho]
    simp only [if_true]
    rw [happend]
    exact ⟨rfl, rfl, hlook⟩

theorem appendStep_ok_red (s : LogState) (fs : FS) (env : Env) (data : RDict)
    (f : List Char) (ha : env.appendOk = true) :
    appendStep s fs env data f =
      ⟨s, fsAppend fs f (logRowOf data env), LogStatus.logged, data⟩ := by
  unfold appendStep
  rw [if_pos (by simp [ha])]

/-- A ready writer with a succeeding append: `log_data` appends exactly one
serialized row to the session file and reports success. -/
theorem log_data_ready (s : LogState) (fs : FS) (env : Env) (data : RDict)
    (f : List Char) (rows : List Row) (hsf : s.logFile = some f)
    (hex : fsLookup fs f = some rows) (ha : env.appendOk = true) :
    log_data s fs env data =
      ⟨s, fsAppend fs f (logRowOf data env), LogStatus.logged, data⟩ := by
  rw [log_data_some_red s fs env data f hsf,
    existsStep_exists_red s fs env data f (by simp [fsExists, hex]),
    appendStep_ok_red s fs env data f ha]

/-! ## The claims -/

/-- C8: each per-metric rolling history buffer is a bounded FIFO of capacity
`HISTORY_LEN = 120`.  For every sequence `l` of appended samples (starting
from the empty buffer), the resulting buffer never exceeds the capacity and
equals the last 120 samples in their original insertion order — in
particular, appending `N + 5` samples leaves exactly `N` entries with the
oldest 5 evicted. -/
theorem claim_C8_history_bounded_fifo (l : List ℚ) :
    (runHistory HISTORY_LEN l).length ≤ HISTORY_LEN ∧
    runHistory HISTORY_LEN l = l.drop (l.length - HISTORY_LEN) := by
  have h := runHistory_eq_drop HISTORY_LEN (by unfold HISTORY_LEN; norm_num) l
  refine ⟨?_, h⟩
  rw [h]
  simp only [List.length_drop]
  omega

/-- C4: the merge step of `main.main` overlays position on sensor data.
Pointwise, the merged dict takes the position fragment's entry for exactly
the keys latitude/longitude/altitude whenever the fragment provides them,
and the sensor fragment's entry for every other key (and for the three
position keys the fragment does not provide). -/
theorem claim_C4_merge_overlay (sensor gps : RDict) (k : RField) :
    overlayGps sensor gps k =
      if (k = RField.latitude ∨ k = RField.longitude ∨ k = RField.altitude) ∧
          (gps k).isSome = true then gps k
      else sensor k :=
  overlayGps_apply sensor gps k

/-- A tick with no hardware at all: the sensor fails to initialize (its dict
carries only `None` measurements) and the GPS returns no fix (`{}`). -/
def noHwSensor : RDict := read_sensor "2025-06-01T12:00:00".toList SensorResult.noInit

/-- C5, counterexample: after the merge-and-fallback step of a tick with no
hardware, `gas`, `latitude`, `longitude` and `altitude` are all still
absent/`None` — `_simulate_if_missing` fills only temperature, humidity and
pressure, so the claim that no field remains `None` is false. -/
theorem claim_C5_counterexample :
    dget (tickMerge (fun _ => 0) 0 noHwSensor emptyRD) RField.latitude = none ∧
    dget (tickMerge (fun _ => 0) 0 noHwSensor emptyRD) RField.longitude = none ∧
    dget (tickMerge (fun _ => 0) 0 noHwSensor emptyRD) RField.altitude = none ∧
    dget (tickMerge (fun _ => 0) 0 noHwSensor emptyRD) RField.gas = none := by
  refine ⟨rfl, rfl, rfl, rfl⟩

/-- C5, amended: `_simulate_if_missing` guarantees that temperature, humidity
and pressure are present and non-`None` afterwards, and leaves every other
field (timestamp, gas, latitude, longitude, altitude) exactly as merged —
synthetic fallback covers only the three display metrics. -/
theorem claim_C5_amended (sinQ : ℚ → ℚ) (baseT : ℕ) (data : RDict) :
    (dget (simulate_if_missing sinQ baseT data) RField.temperature).isSome = true ∧
    (dget (simulate_if_missing sinQ baseT data) RField.humidity).isSome = true ∧
    (dget (simulate_if_missing sinQ baseT data) RField.pressure).isSome = true ∧
    dget (simulate_if_missing sinQ baseT data) RField.timestamp
      = dget data RField.timestamp ∧
    dget (simulate_if_missing sinQ baseT data) RField.gas
      = dget data RField.gas ∧
    dget (simulate_if_missing sinQ baseT data) RField.latitude
      = dget data RField.latitude ∧
    dget (simulate_if_missing sinQ baseT data) RField.longitude
      = dget data RField.longitude ∧
    dget (simulate_if_missing sinQ baseT data) RField.altitude
      = dget data RField.altitude := by
  unfold simulate_if_missing
  refine ⟨?_, ?_, ?_, ?_, ?_, ?_, ?_, ?_⟩
  · apply dget_fillIfNone_isSome
    apply dget_fillIfNone_isSome
    exact dget_fillIfNone_self data RField.temperature _
  · apply dget_fillIfNone_isSome
    exact dget_fillIfNone_self _ RField.humidity _
  · exact dget_fillIfNone_self _ RField.pressure _
  all_goals
    rw [dget_fillIfNone_ne _ _ _ _ (by simp), dget_fillIfNone_ne _ _ _ _ (by simp),
      dget_fillIfNone_ne _ _ _ _ (by simp)]

/-- The orchestrator instant used by the logger in the counterexample tick. -/
def cEnv : Env :=
  { initNow := ⟨2025, 6, 1, 12, 0, 1⟩, markerNow := ⟨2025, 6, 1, 12, 0, 1⟩,
    rowNow := ⟨2025, 6, 1, 12, 0, 1⟩, openOk := true, appendOk := true }

/-- C6, counterexample: `read_sensor` stamps its own `timestamp` into every
fragment, the merge keeps it, and `log_data` writes it out unchanged — so
the timestamp of the logged record originates from the sensor source's
fragment, not from the orchestrator: here the written timestamp cell is the
sensor's ISO string, which differs from the logger's wall-clock rendering. -/
theorem claim_C6_counterexample :
    (logRowOf (tickMerge (fun _ => 0) 0 noHwSensor emptyRD) cEnv).head?
      = some (Value.str "2025-06-01T12:00:00".toList) ∧
    Value.str "2025-06-01T12:00:00".toList
      ≠ Value.str (humanTimeStr cEnv.rowNow) := by
  constructor
  · rfl
  · decide

/-- C6, amended: the timestamp of a logged reading originates from the sensor
fragment — `read_sensor` stamps every fragment it returns, the merge step
never copies the position source's timestamp and preserves the sensor's, and
the serialized row carries that same sensor timestamp in its first cell; the
logger stamps its own "now" only when the merged dict has no usable
timestamp. -/
theorem claim_C6_amended (now : List Char) (r : SensorResult) (gps : RDict)
    (sinQ : ℚ → ℚ) (baseT : ℕ) (env : Env) :
    dget (read_sensor now r) RField.timestamp = some (Value.str now) ∧
    dget (tickMerge sinQ baseT (read_sensor now r) gps) RField.timestamp
      = some (Value.str now) ∧
    (logRowOf (tickMerge sinQ baseT (read_sensor now r) gps) env).head?
      = some (Value.str now) := by
  have h1 : dget (read_sensor now r) RField.timestamp = some (Value.str now) := rfl
  have hover : overlayGps (read_sensor now r) gps RField.timestamp
      = read_sensor now r RField.timestamp := by
    rw [overlayGps_apply]
    simp
  have hover2 : overlayGps (read_sensor now r) gps RField.timestamp
      = some (some (Value.str now)) := by
    rw [hover]
    rfl
  have h2 : dget (tickMerge sinQ baseT (read_sensor now r) gps) RField.timestamp
      = some (Value.str now) := by
    unfold tickMerge simulate_if_missing
    rw [dget_fillIfNone_ne _ _ _ _ (by simp), dget_fillIfNone_ne _ _ _ _ (by simp),
      dget_fillIfNone_ne _ _ _ _ (by simp)]
    rw [dget_dsetdefault_ne _ _ _ _ (by simp), dget_dsetdefault_ne _ _ _ _ (by simp),
      dget_dsetdefault_ne _ _ _ _ (by simp)]
    simp [dget, hover2]
  exact ⟨h1, h2, logRowOf_head_of_some _ env _ h2⟩

/-! ### GPS parse extraction -/

theorem parse_gpgga_eq_some (now : List Char) (msg : NmeaMsg) (d : RDict)
    (h : parse_gpgga now msg = some d) :
    msg.sentence_type = "GGA".toList ∧ msg.gps_qual ≠ 0 ∧
    d RField.timestamp = some (some (Value.str now)) ∧
    d RField.latitude = some (Option.map Value.num (nmea_convert msg.lat msg.lat_dir)) ∧
    d RField.longitude = some (Option.map Value.num (nmea_convert msg.lon msg.lon_dir)) ∧
    d RField.altitude = some (Option.map Value.num msg.altitude) := by
  unfold parse_gpgga at h
  by_cases hs : msg.sentence_type ≠ "GGA".toList
  · rw [if_pos hs] at h
    cases h
  · rw [if_neg hs] at h
    by_cases hq : msg.gps_qual = 0
    · rw [if_pos hq] at h
      cases h
    · rw [if_neg hq] at h
      have hd := Option.some.inj h
      refine ⟨not_not.mp hs, hq, ?_, ?_, ?_, ?_⟩ <;> rw [← hd]

/-! ### Concrete instances for counterexamples and witnesses -/

/-- A GGA sentence with valid fix quality but an empty latitude field and a
present longitude (`12000.0` = 120°00.00) and altitude. -/
def c7Msg : NmeaMsg :=
  { sentence_type := "GGA".toList, gps_qual := 1, lat := none, lat_dir := [],
    lon := some 12000, lon_dir := ['E'], altitude := some 10 }

/-- The fragment `_parse_gpgga` produces for `c7Msg`. -/
def c7Dict : RDict := fun k =>
  match k with
  | RField.timestamp => some (some (Value.str "2025-06-01T12:00:00".toList))
  | RField.latitude => some none
  | RField.longitude => some (some (Value.num 120))
  | RField.altitude => some (some (Value.num 10))
  | _ => none

/-- An `Env` whose initialization attempt fails (`open(..., 'w')` raises). -/
def c3Env : Env :=
  { initNow := ⟨2025, 1, 1, 0, 0, 0⟩, markerNow := ⟨2025, 1, 1, 0, 0, 0⟩,
    rowNow := ⟨2025, 1, 1, 0, 0, 0⟩, openOk := false, appendOk := true }

/-- Creation instants of two sessions one second apart. -/
def c9T1 : DT6 := ⟨2025, 1, 2, 3, 4, 5⟩

def c9T2 : DT6 := ⟨2025, 1, 2, 3, 4, 6⟩

/-- A logger state already owning the session file of `c9T1`. -/
def c9S : LogState :=
  { logFile := some (generate_log_filename c9T1), initialized := true }

def c9FS : FS := [(generate_log_filename c9T1, [headerRow, markerRow c9T1])]

/-- A caller dict providing only humidity (no timestamp, everything else
absent). -/
def c10Data : RDict := fun k =>
  match k with
  | RField.humidity => some (some (Value.num 40))
  | _ => none

/-- C7, counterexample: a GGA sentence with non-zero fix quality whose
latitude field is empty yields a fragment in which latitude is `None` while
longitude and altitude are present — `read_data` returns a partial fix, so
"all three present together or the whole result absent" is false. -/
theorem c7conv : nmea_convert (some 12000) ['E'] = some 120 := by
  have hdeg : intTrunc ((12000 : ℚ) / 100) = 120 := by
    have h1 : (12000 : ℚ) / 100 = 120 := by norm_num
    rw [h1]
    rfl
  unfold nmea_convert
  simp only [hdeg]
  rw [if_neg (by decide)]
  norm_num

theorem c7parse :
    parse_gpgga "2025-06-01T12:00:00".toList c7Msg = some c7Dict := by
  unfold parse_gpgga
  rw [if_neg (by decide), if_neg (by decide)]
  congr 1
  funext k
  cases k
  case timestamp => rfl
  case longitude =>
    show some (Option.map Value.num (nmea_convert c7Msg.lon c7Msg.lon_dir))
      = c7Dict RField.longitude
    rw [show c7Msg.lon = some 12000 from rfl,
      show c7Msg.lon_dir = ['E'] from rfl, c7conv]
    rfl
  all_goals rfl

theorem claim_C7_counterexample :
    gps_read_data "2025-06-01T12:00:00".toList [c7Msg] = some c7Dict ∧
    dget c7Dict RField.latitude = none ∧
    dget c7Dict RField.longitude = some (Value.num 120) ∧
    dget c7Dict RField.altitude = some (Value.num 10) := by
  refine ⟨?_, rfl, rfl, rfl⟩
  rw [gps_read_data, c7parse]

/-- C7, amended: a non-`None` result of `read_data` always comes from a GGA
sentence with non-zero fix quality, and carries all three position keys, but
each key's value is independently optional: latitude/longitude are `None`
whenever their raw field is empty, and altitude is `None` when missing —
partial fixes can be returned. -/
theorem claim_C7_amended (now : List Char) (msgs : List NmeaMsg) (d : RDict)
    (h : gps_read_data now msgs = some d) :
    ∃ msg ∈ msgs, msg.sentence_type = "GGA".toList ∧ msg.gps_qual ≠ 0 ∧
      d RField.latitude = some (Option.map Value.num (nmea_convert msg.lat msg.lat_dir)) ∧
      d RField.longitude = some (Option.map Value.num (nmea_convert msg.lon msg.lon_dir)) ∧
      d RField.altitude = some (Option.map Value.num msg.altitude) := by
  induction msgs with
  | nil => cases h
  | cons m rest ih =>
    rw [gps_read_data] at h
    rcases hp : parse_gpgga now m with _ | d0
    · rw [hp] at h
      obtain ⟨msg, hmem, hprops⟩ := ih h
      exact ⟨msg, List.mem_cons_of_mem m hmem, hprops⟩
    · rw [hp] at h
      have hd : d0 = d := Option.some.inj h
      subst hd
      obtain ⟨hs, hq, _, hlat, hlon, halt⟩ := parse_gpgga_eq_some now m d0 hp
      exact ⟨m, List.mem_cons_self m rest, hs, hq, hlat, hlon, halt⟩

/-- C7, witness for the amended theorem at the concrete partial fix. -/
theorem claim_C7_amended_witness :
    ∃ msg ∈ [c7Msg], msg.sentence_type = "GGA".toList ∧ msg.gps_qual ≠ 0 ∧
      c7Dict RField.latitude
        = some (Option.map Value.num (nmea_convert msg.lat msg.lat_dir)) ∧
      c7Dict RField.longitude
        = some (Option.map Value.num (nmea_convert msg.lon msg.lon_dir)) ∧
      c7Dict RField.altitude = some (Option.map Value.num msg.altitude) :=
  claim_C7_amended "2025-06-01T12:00:00".toList [c7Msg] c7Dict
    (by rw [gps_read_data, c7parse])

/-- C1: when `log_data` is called with the writer not ready (no session ever
begun, or the session file gone from disk), it first transparently attempts a
fresh `init_log`: if that re-initialization fails, the failure is reported
(`initFailed`) and the record dropped with the directory untouched; if it
succeeds, the record is appended to the fresh session file.  In every case
the call returns normally (the embedding is a total function — every
exception of the source is caught inside the call) with the caller's dict
intact, so a single failed write never ends the sampling loop. -/
theorem claim_C1_self_healing (s : LogState) (fs : FS) (env : Env)
    (data : RDict) (hnr : writerReady s fs = false) :
    (env.openOk = false →
      log_data s fs env data =
        ⟨{ logFile := none, initialized := false }, fs, LogStatus.initFailed, data⟩) ∧
    (env.openOk = true → env.appendOk = true →
      (log_data s fs env data).status = LogStatus.logged ∧
      (log_data s fs env data).state =
        { logFile := some (generate_log_filename env.initNow), initialized := true } ∧
      fsLookup (log_data s fs env data).fs (generate_log_filename env.initNow) =
        some [headerRow, markerRow env.markerNow, logRowOf data env]) ∧
    (log_data s fs env data).callerData = data :=
  ⟨fun ho => log_data_unready_initFail s fs env data hnr ho,
   fun ho ha => log_data_unready_heal s fs env data hnr ho ha,
   log_data_caller s fs env data⟩

/-- C1, witness: a call with no session ever begun and succeeding I/O
self-heals and logs the record. -/
theorem claim_C1_witness :
    (log_data ⟨none, false⟩ [] cEnv noHwSensor).status = LogStatus.logged ∧
    fsLookup (log_data ⟨none, false⟩ [] cEnv noHwSensor).fs
      (generate_log_filename cEnv.initNow) =
      some [headerRow, markerRow cEnv.markerNow, logRowOf noHwSensor cEnv] :=
  ⟨((claim_C1_self_healing ⟨none, false⟩ [] cEnv noHwSensor (by decide)).2.1
      rfl rfl).1,
   ((claim_C1_self_healing ⟨none, false⟩ [] cEnv noHwSensor (by decide)).2.1
      rfl rfl).2.2⟩

/-- C2, counterexample: the timestamp is one of the eight fields, and an
absent timestamp is NOT serialized as the empty string — logging a dict
with no timestamp (here `c10Data`, which carries only humidity) appends a
row whose first (timestamp) cell is the logger's wall-clock default string,
which differs from the empty cell.  So "every absent (None) field serialized
as the empty string" is false on this code. -/
theorem claim_C2_counterexample :
    dget c10Data RField.timestamp = none ∧
    fsLookup (log_data ⟨some ['a'], true⟩ [(['a'], [headerRow])] cEnv c10Data).fs
      ['a'] = some ([headerRow] ++ [logRowOf c10Data cEnv]) ∧
    (logRowOf c10Data cEnv).head? = some (Value.str (humanTimeStr cEnv.rowNow)) ∧
    Value.str (humanTimeStr cEnv.rowNow) ≠ Value.str [] := by
  refine ⟨rfl, ?_, logRowOf_head_of_none c10Data cEnv rfl, by decide⟩
  rw [log_data_ready ⟨some ['a'], true⟩ [(['a'], [headerRow])] cEnv c10Data
    ['a'] [headerRow] rfl rfl rfl]
  exact fsLookup_fsAppend_self [(['a'], [headerRow])] ['a']
    (logRowOf c10Data cEnv) [headerRow] rfl

/-- C2, amended: a ready writer appends exactly one serialized row per call,
the row has one cell per header field in header order (`logRowOf` maps over
`FIELD_NAMES`), its length equals the header's, every non-timestamp field
that is absent/`None` in the caller's dict is serialized as the empty
string, an absent/`None` timestamp is serialized as the logger's wall-clock
default instead, and no reading is ever rejected: the status is `logged`
regardless of which fields are missing. -/
theorem claim_C2_row_shape (s : LogState) (fs : FS) (env : Env) (data : RDict)
    (f : List Char) (rows : List Row) (hsf : s.logFile = some f)
    (hex : fsLookup fs f = some rows) (ha : env.appendOk = true) :
    (log_data s fs env data).status = LogStatus.logged ∧
    fsLookup (log_data s fs env data).fs f = some (rows ++ [logRowOf data env]) ∧
    (logRowOf data env).length = FIELD_NAMES.length ∧
    headerRow.length = FIELD_NAMES.length ∧
    (∀ (k : RField), k ≠ RField.timestamp → dget data k = none →
      ∀ (i : ℕ) (hi : i < FIELD_NAMES.length), FIELD_NAMES.get ⟨i, hi⟩ = k →
      ∀ (hi2 : i < (logRowOf data env).length),
      (logRowOf data env).get ⟨i, hi2⟩ = Value.str []) ∧
    (dget data RField.timestamp = none →
      (logRowOf data env).head? = some (Value.str (humanTimeStr env.rowNow))) := by
  rw [log_data_ready s fs env data f rows hsf hex ha]
  refine ⟨rfl, ?_, logRowOf_length data env, by simp [headerRow], ?_, ?_⟩
  · exact fsLookup_fsAppend_self fs f (logRowOf data env) rows hex
  · intro k hk hnone i hi hki hi2
    exact logRowOf_blank data env k hk hnone i hi hki hi2
  · intro hts
    exact logRowOf_head_of_none data env hts

/-- C2, witness: logging a dict that misses every field but humidity still
produces a full-width row appended to the session file, with the absent
timestamp defaulted to the logger's wall-clock string. -/
theorem claim_C2_witness :
    (log_data ⟨some ['a'], true⟩ [(['a'], [headerRow])] cEnv c10Data).status
      = LogStatus.logged ∧
    fsLookup (log_data ⟨some ['a'], true⟩ [(['a'], [headerRow])] cEnv c10Data).fs
      ['a'] = some ([headerRow] ++ [logRowOf c10Data cEnv]) ∧
    (logRowOf c10Data cEnv).length = FIELD_NAMES.length ∧
    (logRowOf c10Data cEnv).head? = some (Value.str (humanTimeStr cEnv.rowNow)) :=
  ⟨(claim_C2_row_shape ⟨some ['a'], true⟩ [(['a'], [headerRow])] cEnv c10Data
      ['a'] [headerRow] rfl rfl rfl).1,
   (claim_C2_row_shape ⟨some ['a'], true⟩ [(['a'], [headerRow])] cEnv c10Data
      ['a'] [headerRow] rfl rfl rfl).2.1,
   (claim_C2_row_shape ⟨some ['a'], true⟩ [(['a'], [headerRow])] cEnv c10Data
      ['a'] [headerRow] rfl rfl rfl).2.2.1,
   (claim_C2_row_shape ⟨some ['a'], true⟩ [(['a'], [headerRow])] cEnv c10Data
      ['a'] [headerRow] rfl rfl rfl).2.2.2.2.2 rfl⟩

/-- C3, counterexample: when the session file cannot be created at startup
(`open` raises, modeled by `openOk = false`), `init_log` catches the error
and `main` nevertheless enters the sampling loop with the writer left
uninitialized — the process does not exit with a non-zero status, so the
claim that startup logging failure is fatal is false on this code. -/
theorem claim_C3_counterexample :
    (main_startup ⟨none, false⟩ [] c3Env).1 = StartOutcome.enteredLoop ∧
    (main_startup ⟨none, false⟩ [] c3Env).1 ≠ StartOutcome.exitedNonZero ∧
    (main_startup ⟨none, false⟩ [] c3Env).2.1.logFile = none := by
  refine ⟨rfl, by decide, rfl⟩

/-- C3, amended: if the log session cannot be created at startup, `init_log`
reports the error internally and leaves the writer not ready
(`LOG_FILE = None`, `_initialized = False`), and the process proceeds into
the sampling loop (where each `log_data` call retries initialization); it
does not exit non-zero — the `exit(1)` guard of `__main__` fires only for
exceptions escaping `main()`, which initialization failure never raises. -/
theorem claim_C3_amended (s : LogState) (fs : FS) (env : Env)
    (hnr : logReady s fs = false) (ho : env.openOk = false) :
    main_startup s fs env =
      (StartOutcome.enteredLoop, { logFile := none, initialized := false }, fs) := by
  unfold main_startup
  rw [init_log_not_ready s fs env hnr, ho]
  simp

/-- C3, witness for the amended theorem. -/
theorem claim_C3_amended_witness :
    main_startup ⟨none, false⟩ [] c3Env =
      (StartOutcome.enteredLoop, { logFile := none, initialized := false },
        ([] : FS)) :=
  claim_C3_amended ⟨none, false⟩ [] c3Env (by decide) rfl

/-- C9: session identity is monotonic and begin is idempotent — creation
instants in distinct wall-clock seconds (strictly increasing chronological
key, components within their calendar widths) yield distinct and
lexicographically increasing filenames, and a second `init_log` call while
the writer is initialized and its session file still exists returns with the
state and the directory unchanged: no second file is created and `LOG_FILE`
keeps its value. -/
theorem claim_C9_session_identity (t1 t2 : DT6) (h1 : dtBounded t1)
    (h2 : dtBounded t2) (hlt : dtKey t1 < dtKey t2) (s : LogState) (fs : FS)
    (env : Env) (hready : logReady s fs = true) :
    (List.Lex (· < ·) (generate_log_filename t1) (generate_log_filename t2) ∧
      generate_log_filename t1 ≠ generate_log_filename t2) ∧
    init_log s fs env = (s, fs) := by
  have hlex := generate_log_filename_lex t1 t2 h1 h2 hlt
  exact ⟨⟨hlex, lex_ne hlex⟩, by simp [init_log, hready]⟩

/-- C9, witness: two instants one second apart, and a repeated begin on a
live session. -/
theorem claim_C9_witness :
    (List.Lex (· < ·) (generate_log_filename c9T1) (generate_log_filename c9T2) ∧
      generate_log_filename c9T1 ≠ generate_log_filename c9T2) ∧
    init_log c9S c9FS cEnv = (c9S, c9FS) :=
  claim_C9_session_identity c9T1 c9T2 (by decide) (by decide) (by decide)
    c9S c9FS cEnv (by decide)

/-- C10: `log_data` never mutates its argument — the caller's dict after the
call equals the dict passed in, and the timestamp default is applied to the
serialized row only (`dict(data)` copy): when the caller's dict has no
timestamp, the written row starts with the logger's wall-clock string while
the caller's dict still has no timestamp after the call. -/
theorem claim_C10_no_mutation (s : LogState) (fs : FS) (env : Env)
    (data : RDict) :
    (log_data s fs env data).callerData = data ∧
    (dget data RField.timestamp = none →
      (logRowOf data env).head? = some (Value.str (humanTimeStr env.rowNow)) ∧
      dget (log_data s fs env data).callerData RField.timestamp = none) := by
  refine ⟨log_data_caller s fs env data,
    fun h => ⟨logRowOf_head_of_none data env h, ?_⟩⟩
  rw [log_data_caller s fs env data]
  exact h

/-- C10, witness at a dict missing its timestamp. -/
theorem claim_C10_witness :
    (log_data ⟨some ['a'], true⟩ [(['a'], [headerRow])] cEnv c10Data).callerData
      = c10Data ∧
    ((logRowOf c10Data cEnv).head? = some (Value.str (humanTimeStr cEnv.rowNow)) ∧
      dget (log_data ⟨some ['a'], true⟩ [(['a'], [headerRow])] cEnv
        c10Data).callerData RField.timestamp = none) :=
  ⟨(claim_C10_no_mutation ⟨some ['a'], true⟩ [(['a'], [headerRow])] cEnv
      c10Data).1,
   (claim_C10_no_mutation ⟨some ['a'], true⟩ [(['a'], [headerRow])] cEnv
      c10Data).2 rfl⟩
